import Mathlib

/-!
# mks-wifi-to-octo: the upload relay and the print-start sequence

A shallow embedding of `main.go`.  Go strings are `String` (a filename is the
sequence of its characters), byte slices are `List UInt8`, and a Go function returning `(value, error)` returns a tuple whose
last component is `Option String` (`none` is a `nil` error, `some msg` an error
with that message).  Everything outside the process (the multipart decoder of
`net/http`, the file behind a `FileHeader`, the HTTP client, the TCP socket) is
an oracle collected in `World`; every call that leaves the process is recorded
as an `Event`, in program order.  Calls to the logger only print to stdout and
are left out.
-/

namespace MksWifiToOcto

/-! ## fmt.Sprintf -/

/-- The part of `fmt.Sprintf` the program uses: the verbs `%s`, `%d` and `%v`
take the next operand (already rendered as text) or print `%!verb(MISSING)`
when none is left, `%%` is a percent sign, a percent sign that ends the format
prints `%!(NOVERB)`, and every other character of the format is copied.  The
formats of the program have no other verb; on one the two characters are
copied as they stand. -/
def sprintfChars : List Char → List String → List Char
  | [], _ => []
  | [c], _ => if c = '%' then "%!(NOVERB)".toList else [c]
  | c :: v :: rest, args =>
    if c = '%' then
      if v = 's' ∨ v = 'd' ∨ v = 'v' then
        match args with
        | a :: as => a.toList ++ sprintfChars rest as
        | [] => "%!".toList ++ [v] ++ "(MISSING)".toList ++ sprintfChars rest []
      else if v = '%' then '%' :: sprintfChars rest args
      else c :: v :: sprintfChars rest args
    else c :: sprintfChars (v :: rest) args

/-- The function `fmt.Sprintf(format, args...)`. -/
def Sprintf (format : String) (args : List String) : String :=
  String.mk (sprintfChars format.toList args)

/-- The function `fmt.Errorf(format, args...)`: an error with the formatted message. -/
def Errorf (format : String) (args : List String) : Option String :=
  some (Sprintf format args)

/-! ## Data model -/

/-- The struct `multipart.FileHeader`: one file part of a decoded form.
`content` is the bytes of the part, wherever the decoder stored them. -/
structure FileHeader where
  Filename : String
  Size : Int
  content : List UInt8
  deriving DecidableEq

/-- One part of a decoded multipart message, in message order. -/
inductive FormPart where
  | value (name : String) (text : String)
  | file (name : String) (header : FileHeader)
  deriving DecidableEq

/-- The struct `multipart.Form`; a Go map lookup `m[k]` with its `ok` flag is
an `Option`. -/
structure Form where
  Value : String → Option (List String)
  File : String → Option (List FileHeader)

/-- The values of the value parts called `name`, in message order. -/
def valuesNamed (name : String) (parts : List FormPart) : List String :=
  parts.filterMap fun p =>
    match p with
    | .value n t => if n = name then some t else none
    | .file _ _ => none

/-- The headers of the file parts called `name`, in message order. -/
def filesNamed (name : String) (parts : List FormPart) : List FileHeader :=
  parts.filterMap fun p =>
    match p with
    | .value _ _ => none
    | .file n h => if n = name then some h else none

/-- A key is in a map of the form exactly when some part carries that name. -/
def mapEntry {α : Type} (xs : List α) : Option (List α) :=
  if xs.isEmpty then none else some xs

/-- The form that `multipart.Reader.ReadForm` builds: each part is appended to
the slice stored under its field name. -/
def readForm (parts : List FormPart) : Form where
  Value := fun k => mapEntry (valuesNamed k parts)
  File := fun k => mapEntry (filesNamed k parts)

/-- The incoming `*http.Request`, as far as the handler reads it: the error of
`ParseMultipartForm`, or the parts of the decoded form in message order (the
decoder skips a part without a field name, so none is in the list). -/
structure Request where
  body : Except String (List FormPart)

/-- The method `r.ParseMultipartForm(maxMemory)` followed by the read of
`r.MultipartForm`: the decoder's error, or the decoded form. -/
def Request.ParseMultipartForm (r : Request) (_maxMemory : Nat) : Except String Form :=
  match r.body with
  | .error e => .error e
  | .ok parts => .ok (readForm parts)

/-- The writer `http.ResponseWriter`: the status line once it is written, and
the body written so far. -/
structure ResponseWriter where
  status : Option Nat
  body : String
  deriving DecidableEq

/-- The response writer the server hands to a handler: nothing written yet. -/
def ResponseWriter.fresh : ResponseWriter := ⟨none, ""⟩

/-- The method `w.WriteHeader(code)`: sets the status unless one is already sent. -/
def ResponseWriter.WriteHeader (w : ResponseWriter) (code : Nat) : ResponseWriter :=
  match w.status with
  | some _ => w
  | none => { w with status := some code }

/-- The method `w.Write(data)`: sends status 200 first when no status was
written, then appends the data to the body. -/
def ResponseWriter.Write (w : ResponseWriter) (data : String) : ResponseWriter :=
  let w1 := w.WriteHeader 200
  { w1 with body := w1.body ++ data }

/-- One file part of the multipart body under construction. -/
structure Part where
  fieldname : String
  filename : String
  contentType : String
  data : List UInt8
  deriving DecidableEq

/-- The writer `multipart.Writer` together with the `bytes.Buffer` it writes
to, seen through the writer's interface: the parts opened so far (the last one
is the one being written) and whether the closing boundary was written. -/
structure Writer where
  parts : List Part
  closed : Bool
  deriving DecidableEq

/-- The function `multipart.NewWriter(bodyBuf)` on an empty buffer. -/
def NewWriter : Writer := ⟨[], false⟩

/-- The method `CreateFormFile(fieldname, filename)`: opens a new file part of
content type `application/octet-stream`.  Writing to a `bytes.Buffer` never
fails, so the error is always `nil`. -/
def Writer.CreateFormFile (w : Writer) (fieldname filename : String) : Writer × Option String :=
  ({ w with parts := w.parts ++ [⟨fieldname, filename, "application/octet-stream", []⟩] }, none)

/-- A write to the part writer returned by `CreateFormFile`: the bytes are
appended to the part being written. -/
def Writer.writePart (w : Writer) (bytes : List UInt8) : Writer :=
  match w.parts.getLast? with
  | none => w
  | some p => { w with parts := w.parts.dropLast ++ [{ p with data := p.data ++ bytes }] }

/-- The method `bodyWriter.Close()`: writes the closing boundary. -/
def Writer.Close (w : Writer) : Writer := { w with closed := true }

/-- An opened `multipart.File`: the bytes it will deliver, and, when reading
breaks off, after how many bytes and with which error. -/
structure File where
  data : List UInt8
  fault : Option (Nat × String)

/-- The value `*http.Response` as far as the program reads it: the status code
and what `ioutil.ReadAll(resp.Body)` returns. -/
structure Response where
  StatusCode : Nat
  Body : Except String (List UInt8)

/-- Everything outside the process, for the duration of one request. -/
structure World where
  /-- the global `printerHost`, set once from the command line -/
  printerHost : String
  /-- the error of `fileHeader.Open()`, if it fails -/
  openErr : FileHeader → Option String
  /-- the read error that interrupts `io.Copy`, and after how many bytes -/
  readFault : FileHeader → Option (Nat × String)
  /-- the device's answer to `client.Post(uri, contentType, body)`, or a transport error -/
  post : String → String → Writer → Except String Response
  /-- the error of `net.Dial(network, address)`, if it fails -/
  dial : String → String → Option String
  /-- what the socket delivers to a `Read`, given the data written to it so far -/
  recv : List String → List UInt8 × Option String

/-- The two functions of the program whose invocation the trace marks. -/
inductive Fn where
  | uploadFileToMKS
  | startMKSJob
  deriving DecidableEq

/-- The calls that leave the process, and the markers the model puts around
the handler's two calls into the relay. -/
inductive Event where
  | call (f : Fn)
  | ret (f : Fn)
  | fileOpen (filename : String)
  | fileClose
  | post (uri contentType : String) (body : Writer)
  | bodyClose
  | sleep (seconds : Nat)
  | dial (network address : String)
  | connWrite (data : String)
  | connRead (size : Nat)
  | connClose
  deriving DecidableEq

/-- The method `fileHeader.Open()`. -/
def FileHeader.Open (fileHeader : FileHeader) (w : World) : Except String File :=
  match w.openErr fileHeader with
  | some e => .error e
  | none => .ok ⟨fileHeader.content, w.readFault fileHeader⟩

/-- The function `io.Copy(fileWriter, fh)`: copies until the source is
exhausted or a read fails; what was read before the failure is written. -/
def ioCopy (dst : Writer) (src : File) : Writer × Nat × Option String :=
  match src.fault with
  | some (n, e) => (dst.writePart (src.data.take n), (src.data.take n).length, some e)
  | none => (dst.writePart src.data, src.data.length, none)

/-- The method `conn.Read(buff)`: at most `buff.length` of the delivered bytes
overwrite the front of the buffer. -/
def connRead (w : World) (written : List String) (buff : List UInt8) :
    List UInt8 × Nat × Option String :=
  let chunk := (w.recv written).1.take buff.length
  (chunk ++ buff.drop chunk.length, chunk.length, (w.recv written).2)

/-! ## The program -/

/-- The global `MKSUploadUriPattern` (main.go 18). -/
def MKSUploadUriPattern : String := "http://%s/upload?X-Filename=%s"

/-- The function `parseOctoUpload` (main.go 105-130). -/
def parseOctoUpload (r : Request) : Option FileHeader × Bool × Option String :=
  match r.ParseMultipartForm (32 * 1024 * 1024) with
  | .error parseErr =>
    (none, false, Errorf "failed to parse multipart message: %v" [parseErr])
  | .ok form =>
    let startPrinting :=
      match form.Value "print" with
      | some val => if val.length = 1 then (if val.head? = some "true" then true else false) else false
      | none => false
    match form.File "file" with
    | none => (none, false, Errorf "can't find gcode file in request" [])
    | some upfs =>
      if upfs.length ≠ 1 then
        (none, false, Errorf "wrong gcode files count in request: %d" [toString upfs.length])
      else
        (upfs.head?, startPrinting, none)

/-- The function `uploadFileToMKS` (main.go 132-169): the returned error and
the calls made, in order.  The deferred closes run at the return, last
deferred first. -/
def uploadFileToMKS (w : World) (fileHeader : FileHeader) : Option String × List Event :=
  match NewWriter.CreateFormFile "uploadfile" fileHeader.Filename with
  | (_, some err) => (Errorf "error writing to buffer: %v" [err], [])
  | (bodyWriter, none) =>
    match fileHeader.Open w with
    | .error err =>
      (Errorf "can't open file %s: %v" [fileHeader.Filename, err],
        [.fileOpen fileHeader.Filename])
    | .ok fh =>
      match ioCopy bodyWriter fh with
      | (_, _, some err) =>
        (Errorf "can't copy from multipart to MKS request: %v" [err],
          [.fileOpen fileHeader.Filename, .fileClose])
      | (bodyWriter, _, none) =>
        let bodyBuf := bodyWriter.Close
        let uri := Sprintf MKSUploadUriPattern [w.printerHost, fileHeader.Filename]
        match w.post uri "application/octet-stream" bodyBuf with
        | .error err =>
          (Errorf "error on MKS request: %v" [err],
            [.fileOpen fileHeader.Filename, .post uri "application/octet-stream" bodyBuf,
              .fileClose])
        | .ok resp =>
          match resp.Body with
          | .error err =>
            (Errorf "can't read MKS response body: %v" [err],
              [.fileOpen fileHeader.Filename, .post uri "application/octet-stream" bodyBuf,
                .bodyClose, .fileClose])
          | .ok _ =>
            (none,
              [.fileOpen fileHeader.Filename, .post uri "application/octet-stream" bodyBuf,
                .bodyClose, .fileClose])

/-- The function `startMKSJob` (main.go 171-187): the returned string and
error, and the calls made, in order.  The results of the two writes are
discarded by the program. -/
def startMKSJob (w : World) (filename : String) : (List UInt8 × Option String) × List Event :=
  let address := Sprintf "%s:8080" [w.printerHost]
  match w.dial "tcp" address with
  | some err => (([], Errorf "can't connect to MKS: %v" [err]), [.dial "tcp" address])
  | none =>
    let cmd1 := Sprintf "M23 %s\r\n" [filename]
    let cmd2 := "M24\r\n"
    let buff : List UInt8 := List.replicate 1024 0
    match connRead w [cmd1, cmd2] buff with
    | (_, _, some _) =>
      (([], Errorf "can't read response from socket" []),
        [.dial "tcp" address, .connWrite cmd1, .connWrite cmd2, .connRead buff.length,
          .connClose])
    | (buff1, n, none) =>
      ((buff1.take n, none),
        [.dial "tcp" address, .connWrite cmd1, .connWrite cmd2, .connRead buff.length,
          .connClose])

/-- The handler returned by `handleFileUpload` (main.go 74-103): the response
writer after the handler returns and the calls made, in order; `none` when the
handler panics on a nil file header. -/
def handleFileUpload (w : World) (rw : ResponseWriter) (r : Request) :
    Option (ResponseWriter × List Event) :=
  match parseOctoUpload r with
  | (_, _, some _) => some (rw.WriteHeader 400, [])
  | (none, _, none) => none
  | (some upf, startPrinting, none) =>
    match uploadFileToMKS w upf with
    | (some _, t1) =>
      some (rw.WriteHeader 400, [.call .uploadFileToMKS] ++ t1 ++ [.ret .uploadFileToMKS])
    | (none, t1) =>
      if startPrinting then
        match startMKSJob w upf.Filename with
        | ((_, some _), t2) =>
          some (rw.WriteHeader 500,
            [.call .uploadFileToMKS] ++ t1 ++ [.ret .uploadFileToMKS] ++
              [.sleep 3, .call .startMKSJob] ++ t2 ++ [.ret .startMKSJob])
        | ((_, none), t2) =>
          some (rw.Write "{}",
            [.call .uploadFileToMKS] ++ t1 ++ [.ret .uploadFileToMKS] ++
              [.sleep 3, .call .startMKSJob] ++ t2 ++ [.ret .startMKSJob])
      else
        some (rw.Write "{}", [.call .uploadFileToMKS] ++ t1 ++ [.ret .uploadFileToMKS])


/-! ## Observations on a trace -/

/-- The data of the socket writes of a trace, in order. -/
def writesOf (t : List Event) : List String :=
  t.filterMap fun e =>
    match e with
    | .connWrite data => some data
    | _ => none

/-- Whether the event is a TCP connection attempt. -/
def Event.isDial : Event → Bool
  | .dial _ _ => true
  | _ => false

/-- Whether the event is the HTTP upload request. -/
def Event.isPost : Event → Bool
  | .post _ _ _ => true
  | _ => false

/-- Whether the event is a read from the socket. -/
def Event.isRead : Event → Bool
  | .connRead _ => true
  | _ => false

/-- Whether the event belongs to the upload: the source file or the HTTP request. -/
def Event.isUpload : Event → Bool
  | .fileOpen _ => true
  | .fileClose => true
  | .post _ _ _ => true
  | .bodyClose => true
  | _ => false

/-- Whether the event is a call on the TCP socket of the device. -/
def Event.isTcp : Event → Bool
  | .dial _ _ => true
  | .connWrite _ => true
  | .connRead _ => true
  | .connClose => true
  | _ => false

/-! ## Sample worlds -/

/-- A printer at 10.0.0.5 that accepts the upload with status 200 and answers
`ok` on its command socket. -/
def printerReady : World where
  printerHost := "10.0.0.5"
  openErr := fun _ => none
  readFault := fun _ => none
  post := fun _ _ _ => .ok ⟨200, .ok [111, 107]⟩
  dial := fun _ _ => none
  recv := fun _ => ([111, 107], none)

/-- A printer that accepts the upload but refuses the TCP connection. -/
def printerNoSocket : World :=
  { printerReady with dial := fun _ _ => some "connection refused" }

/-- A printer that accepts the connection and closes it without an answer. -/
def printerSilent : World :=
  { printerReady with recv := fun _ => ([], some "EOF") }

/-- A printer that refuses the HTTP upload. -/
def printerNoHttp : World :=
  { printerReady with post := fun _ _ _ => .error "connection refused" }

/-- A printer that answers the upload with status 500 and a readable body. -/
def printerStatus500 : World :=
  { printerReady with post := fun _ _ _ => .ok ⟨500, .ok [111, 107]⟩ }

/-! ## Formatting lemmas -/

theorem Sprintf_address (host : String) :
    Sprintf "%s:8080" [host] = host ++ ":8080" := by
  apply String.ext
  simp [Sprintf, sprintfChars, String.toList]

theorem Sprintf_uri (host filename : String) :
    Sprintf MKSUploadUriPattern [host, filename]
      = "http://" ++ host ++ "/upload?X-Filename=" ++ filename := by
  apply String.ext
  simp [Sprintf, sprintfChars, String.toList, MKSUploadUriPattern]

theorem Sprintf_select (filename : String) :
    Sprintf "M23 %s\r\n" [filename] = "M23 " ++ filename ++ "\r\n" := by
  apply String.ext
  simp [Sprintf, sprintfChars, String.toList]

theorem Sprintf_count (n : String) :
    Sprintf "wrong gcode files count in request: %d" [n]
      = "wrong gcode files count in request: " ++ n := by
  apply String.ext
  simp [Sprintf, sprintfChars, String.toList]

theorem Sprintf_missing :
    Sprintf "can't find gcode file in request" [] = "can't find gcode file in request" := by
  apply String.ext
  simp [Sprintf, sprintfChars, String.toList]

/-! ## parseOctoUpload -/

theorem mapEntry_eq_some {α : Type} (xs ys : List α) :
    mapEntry xs = some ys ↔ xs = ys ∧ xs ≠ [] := by
  cases xs <;> simp [mapEntry]

/-- The flag computed from the `print` field (main.go 111-118) is `true`
exactly when the field's slice is `["true"]`. -/
theorem printFlag_eq (vs : Option (List String)) :
    (match vs with
      | some val =>
        if val.length = 1 then (if val.head? = some "true" then true else false) else false
      | none => false) = decide (vs = some ["true"]) := by
  rcases vs with _ | val
  · simp
  · rcases val with _ | ⟨v, _ | ⟨v2, rest⟩⟩ <;> simp

/-- What `parseOctoUpload` returns on a decoded message, by the number of
parts of the `file` field. -/
theorem parseOctoUpload_ok (parts : List FormPart) :
    parseOctoUpload ⟨.ok parts⟩ =
      match filesNamed "file" parts with
      | [] => (none, false, some "can't find gcode file in request")
      | [fh] => (some fh, decide ((readForm parts).Value "print" = some ["true"]), none)
      | fh :: fh2 :: rest =>
        (none, false, some ("wrong gcode files count in request: "
          ++ toString (fh :: fh2 :: rest).length)) := by
  simp only [parseOctoUpload, Request.ParseMultipartForm, printFlag_eq]
  rcases hfs : filesNamed "file" parts with _ | ⟨fh, _ | ⟨fh2, rest⟩⟩
  · simp [readForm, hfs, mapEntry, Errorf, Sprintf_missing]
  · simp [readForm, hfs, mapEntry]
  · simp [readForm, hfs, mapEntry, Errorf, Sprintf_count]

/-- Claim C3.  On a decoded form for which `parseOctoUpload` returns a file,
the returned `startPrinting` flag is `true` exactly when the slice stored under
`print` is the one-element slice `["true"]`, and the returned error is `nil`.
So an absent field, several values (even all `"true"`) and any other text such
as `"True"` or `"1"` give `false`, without an error. -/
theorem parseOctoUpload_startPrinting (parts : List FormPart) (upf : FileHeader)
    (h : (parseOctoUpload ⟨.ok parts⟩).1 = some upf) :
    ((parseOctoUpload ⟨.ok parts⟩).2.1 = true ↔
        (readForm parts).Value "print" = some ["true"]) ∧
      ((readForm parts).Value "print" = some ["true"] ↔
        valuesNamed "print" parts = ["true"]) ∧
      (parseOctoUpload ⟨.ok parts⟩).2.2 = none := by
  rw [parseOctoUpload_ok] at h ⊢
  refine ⟨?_, ?_, ?_⟩
  · rcases hfs : filesNamed "file" parts with _ | ⟨fh, _ | ⟨fh2, rest⟩⟩ <;>
      simp [hfs] at h ⊢
  · simp only [readForm, mapEntry_eq_some]
    constructor
    · exact fun hv => hv.1
    · intro hv
      simp [hv]
  · rcases hfs : filesNamed "file" parts with _ | ⟨fh, _ | ⟨fh2, rest⟩⟩ <;>
      simp [hfs] at h ⊢

/-- Witness for C3: a file and `print=true` give the flag; the same file with
`print` sent twice as `true`, with `True`, with `1`, or without `print` does not. -/
theorem parseOctoUpload_startPrinting_witness :
    (parseOctoUpload ⟨.ok [.file "file" ⟨"a.gco", 2, [71, 49]⟩, .value "print" "true"]⟩).2.1
        = true ∧
      (parseOctoUpload ⟨.ok [.file "file" ⟨"a.gco", 2, [71, 49]⟩, .value "print" "true",
        .value "print" "true"]⟩) = (some ⟨"a.gco", 2, [71, 49]⟩, false, none) ∧
      (parseOctoUpload ⟨.ok [.file "file" ⟨"a.gco", 2, [71, 49]⟩, .value "print" "True"]⟩)
        = (some ⟨"a.gco", 2, [71, 49]⟩, false, none) ∧
      (parseOctoUpload ⟨.ok [.file "file" ⟨"a.gco", 2, [71, 49]⟩, .value "print" "1"]⟩)
        = (some ⟨"a.gco", 2, [71, 49]⟩, false, none) ∧
      (parseOctoUpload ⟨.ok [.file "file" ⟨"a.gco", 2, [71, 49]⟩]⟩)
        = (some ⟨"a.gco", 2, [71, 49]⟩, false, none) := by
  refine ⟨?_, ?_, ?_, ?_, ?_⟩
  · exact (parseOctoUpload_startPrinting
      [.file "file" ⟨"a.gco", 2, [71, 49]⟩, .value "print" "true"] ⟨"a.gco", 2, [71, 49]⟩
      (by simp [parseOctoUpload_ok, filesNamed])).1.2
      (by simp [readForm, mapEntry, valuesNamed])
  all_goals simp [parseOctoUpload_ok, filesNamed, valuesNamed, readForm, mapEntry]

/-- Claim C4.  On a decoded form with no part in the `file` field,
`parseOctoUpload` returns no file, `startPrinting = false` and the error
"can't find gcode file in request"; with `N > 1` parts it returns no file,
`startPrinting = false` and the error "wrong gcode files count in request: N". -/
theorem parseOctoUpload_file_count_errors (parts : List FormPart) :
    ((filesNamed "file" parts).length = 0 →
        parseOctoUpload ⟨.ok parts⟩ = (none, false, some "can't find gcode file in request")) ∧
      (∀ N : Nat, 1 < N → (filesNamed "file" parts).length = N →
        parseOctoUpload ⟨.ok parts⟩
          = (none, false, some ("wrong gcode files count in request: " ++ toString N))) := by
  rw [parseOctoUpload_ok]
  rcases hfs : filesNamed "file" parts with _ | ⟨fh, _ | ⟨fh2, rest⟩⟩
  · simp
    intro N hN hlen
    omega
  · simp
    intro N hN hlen
    omega
  · simp
    intro N _ hlen
    rw [← hlen]

/-- Witness for C4: no `file` part (with `print=true`), and three `file` parts. -/
theorem parseOctoUpload_file_count_errors_witness :
    parseOctoUpload ⟨.ok [.value "print" "true"]⟩
        = (none, false, some "can't find gcode file in request") ∧
      parseOctoUpload ⟨.ok [.file "file" ⟨"a.gco", 0, []⟩, .value "print" "true",
          .file "file" ⟨"b.gco", 0, []⟩, .file "file" ⟨"c.gco", 0, []⟩]⟩
        = (none, false, some ("wrong gcode files count in request: " ++ toString 3)) :=
  ⟨(parseOctoUpload_file_count_errors [.value "print" "true"]).1 (by simp [filesNamed]),
   (parseOctoUpload_file_count_errors [.file "file" ⟨"a.gco", 0, []⟩, .value "print" "true",
      .file "file" ⟨"b.gco", 0, []⟩, .file "file" ⟨"c.gco", 0, []⟩]).2 3 (by decide)
      (by simp [filesNamed])⟩

/-- Claim C5.  On a decoded form whose `file` field holds exactly one part,
`parseOctoUpload` returns a `nil` error and that very part (same filename,
same size, same content); and it returns a file only when the `file` field
holds exactly one part, which is the file returned. -/
theorem parseOctoUpload_single_file (parts : List FormPart) :
    (∀ fh : FileHeader, filesNamed "file" parts = [fh] →
        ∃ out : FileHeader, (parseOctoUpload ⟨.ok parts⟩).1 = some out ∧
          (parseOctoUpload ⟨.ok parts⟩).2.2 = none ∧
          out = fh ∧ out.Filename = fh.Filename ∧ out.Size = fh.Size ∧
          out.content = fh.content) ∧
      (∀ out : FileHeader, (parseOctoUpload ⟨.ok parts⟩).1 = some out →
        filesNamed "file" parts = [out]) ∧
      (∀ e : String, (parseOctoUpload ⟨.error e⟩).1 = none) := by
  rw [parseOctoUpload_ok]
  refine ⟨?_, ?_, ?_⟩
  · intro fh hfs
    exact ⟨fh, by simp [hfs]⟩
  · intro out
    rcases hfs : filesNamed "file" parts with _ | ⟨fh, _ | ⟨fh2, rest⟩⟩ <;> simp
  · intro e
    simp [parseOctoUpload, Request.ParseMultipartForm]

/-- Witness for C5: a form with one `file` part whose name has a path in it. -/
theorem parseOctoUpload_single_file_witness :
    ∃ out : FileHeader,
      (parseOctoUpload ⟨.ok [.value "print" "no", .file "other" ⟨"x", 0, []⟩,
        .file "file" ⟨"../a b.gco", 3, [1, 2, 3]⟩]⟩).1 = some out ∧
      (parseOctoUpload ⟨.ok [.value "print" "no", .file "other" ⟨"x", 0, []⟩,
        .file "file" ⟨"../a b.gco", 3, [1, 2, 3]⟩]⟩).2.2 = none ∧
      out = ⟨"../a b.gco", 3, [1, 2, 3]⟩ ∧ out.Filename = "../a b.gco" ∧ out.Size = 3 ∧
      out.content = [1, 2, 3] :=
  (parseOctoUpload_single_file [.value "print" "no", .file "other" ⟨"x", 0, []⟩,
    .file "file" ⟨"../a b.gco", 3, [1, 2, 3]⟩]).1 ⟨"../a b.gco", 3, [1, 2, 3]⟩
    (by simp [filesNamed])

/-! ## startMKSJob -/

theorem Sprintf_connect (err : String) :
    Sprintf "can't connect to MKS: %v" [err] = "can't connect to MKS: " ++ err := by
  apply String.ext
  simp [Sprintf, sprintfChars, String.toList]

theorem Sprintf_unreadable :
    Sprintf "can't read response from socket" [] = "can't read response from socket" := by
  apply String.ext
  simp [Sprintf, sprintfChars, String.toList]

/-- The slice `buff[:n]` after `conn.Read(buff)` is the chunk delivered. -/
theorem connRead_take (w : World) (written : List String) (buff : List UInt8) :
    (connRead w written buff).1.take (connRead w written buff).2.1
      = (w.recv written).1.take buff.length := by
  simp [connRead]

/-- The function `startMKSJob` when the connection fails. -/
theorem startMKSJob_unreachable (w : World) (filename err : String)
    (h : w.dial "tcp" (w.printerHost ++ ":8080") = some err) :
    startMKSJob w filename
      = (([], some ("can't connect to MKS: " ++ err)),
          [.dial "tcp" (w.printerHost ++ ":8080")]) := by
  simp [startMKSJob, Sprintf_address, h, Errorf, Sprintf_connect]

/-- The function `startMKSJob` when the connection succeeds. -/
theorem startMKSJob_connected (w : World) (filename : String)
    (h : w.dial "tcp" (w.printerHost ++ ":8080") = none) :
    startMKSJob w filename
      = ((match (w.recv ["M23 " ++ filename ++ "\r\n", "M24\r\n"]).2 with
          | some _ => ([], some "can't read response from socket")
          | none => ((w.recv ["M23 " ++ filename ++ "\r\n", "M24\r\n"]).1.take 1024, none)),
          [.dial "tcp" (w.printerHost ++ ":8080"),
            .connWrite ("M23 " ++ filename ++ "\r\n"), .connWrite "M24\r\n",
            .connRead 1024, .connClose]) := by
  simp only [startMKSJob, Sprintf_address, h, Sprintf_select]
  have hlen : (List.replicate 1024 (0 : UInt8)).length = 1024 := List.length_replicate _ _
  generalize List.replicate 1024 (0 : UInt8) = buff at hlen ⊢
  have htake := connRead_take w ["M23 " ++ filename ++ "\r\n", "M24\r\n"] buff
  rcases hr : (w.recv ["M23 " ++ filename ++ "\r\n", "M24\r\n"]) with ⟨data, _ | e⟩
  · simp only [connRead, hr, hlen] at htake ⊢
    simp [htake]
  · simp [connRead, hr, hlen, Errorf, Sprintf_unreadable]

/-- Claim C6.  When the connection to `<printerHost>:8080` succeeds,
`startMKSJob` makes exactly these calls on it, in this order: the write of
`"M23 " ++ filename ++ "\r\n"`, the write of `"M24\r\n"`, one read, the close.
The writes are those two and no other, and written together they are
`"M23 <filename>\r\nM24\r\n"`. -/
theorem startMKSJob_writes (w : World) (filename : String)
    (h : w.dial "tcp" (w.printerHost ++ ":8080") = none) :
    (startMKSJob w filename).2
        = [.dial "tcp" (w.printerHost ++ ":8080"),
            .connWrite ("M23 " ++ filename ++ "\r\n"), .connWrite "M24\r\n",
            .connRead 1024, .connClose] ∧
      writesOf (startMKSJob w filename).2 = ["M23 " ++ filename ++ "\r\n", "M24\r\n"] ∧
      String.join (writesOf (startMKSJob w filename).2)
        = "M23 " ++ filename ++ "\r\nM24\r\n" ∧
      ((startMKSJob w filename).2.filter Event.isRead).length = 1 ∧
      (∃ before after : List Event,
        (startMKSJob w filename).2 = before ++ Event.connRead 1024 :: after ∧
          writesOf before = ["M23 " ++ filename ++ "\r\n", "M24\r\n"] ∧
          writesOf after = []) := by
  rw [startMKSJob_connected w filename h]
  refine ⟨rfl, by simp [writesOf], ?_, by simp [Event.isRead], ?_⟩
  · apply String.ext
    simp [writesOf, String.join]
  · exact ⟨[.dial "tcp" (w.printerHost ++ ":8080"),
      .connWrite ("M23 " ++ filename ++ "\r\n"), .connWrite "M24\r\n"], [.connClose],
      by simp, by simp [writesOf], by simp [writesOf]⟩

/-- Witness for C6: the job for `a.gco` on a printer that accepts the connection. -/
theorem startMKSJob_writes_witness :
    (startMKSJob printerReady "a.gco").2
        = [.dial "tcp" ("10.0.0.5" ++ ":8080"),
            .connWrite ("M23 " ++ "a.gco" ++ "\r\n"), .connWrite "M24\r\n",
            .connRead 1024, .connClose] ∧
      String.join (writesOf (startMKSJob printerReady "a.gco").2)
        = "M23 " ++ "a.gco" ++ "\r\nM24\r\n" :=
  ⟨(startMKSJob_writes printerReady "a.gco" rfl).1,
   (startMKSJob_writes printerReady "a.gco" rfl).2.2.1⟩

/-- Claim C7.  When the connection fails, `startMKSJob` returns the empty
string and an error, and has made no write, no read and no close.  When the
connection succeeds and the read returns an error, it returns the empty string
and an error; when the read returns no error, it returns the bytes delivered to
the 1024-byte buffer (at most 1024) and a `nil` error.  Whenever the connection
succeeded the trace has exactly one close, as its last call. -/
theorem startMKSJob_outcomes (w : World) (filename : String) :
    (∀ err : String, w.dial "tcp" (w.printerHost ++ ":8080") = some err →
        (startMKSJob w filename).1 = ([], some ("can't connect to MKS: " ++ err)) ∧
          writesOf (startMKSJob w filename).2 = [] ∧
          (startMKSJob w filename).2.filter Event.isRead = [] ∧
          (startMKSJob w filename).2.count Event.connClose = 0) ∧
      (w.dial "tcp" (w.printerHost ++ ":8080") = none →
        (∀ err : String,
            (w.recv ["M23 " ++ filename ++ "\r\n", "M24\r\n"]).2 = some err →
            (startMKSJob w filename).1 = ([], some "can't read response from socket")) ∧
          ((w.recv ["M23 " ++ filename ++ "\r\n", "M24\r\n"]).2 = none →
            (startMKSJob w filename).1
                = ((w.recv ["M23 " ++ filename ++ "\r\n", "M24\r\n"]).1.take 1024, none) ∧
              (startMKSJob w filename).1.1.length ≤ 1024) ∧
          (startMKSJob w filename).2.count Event.connClose = 1 ∧
          (startMKSJob w filename).2.getLast? = some Event.connClose) := by
  constructor
  · intro err h
    rw [startMKSJob_unreachable w filename err h]
    simp [writesOf, Event.isRead]
  · intro h
    rw [startMKSJob_connected w filename h]
    refine ⟨?_, ?_, ?_, ?_⟩
    · intro err he
      simp [he]
    · intro he
      simp [he]
    · simp [List.count_cons]
    · simp

/-- Witness for C7: a refused connection, a connection closed without an
answer, and a connection that answers `ok`. -/
theorem startMKSJob_outcomes_witness :
    startMKSJob printerNoSocket "a.gco"
        = (([], some "can't connect to MKS: connection refused"),
            [.dial "tcp" "10.0.0.5:8080"]) ∧
      (startMKSJob printerSilent "a.gco").1 = ([], some "can't read response from socket") ∧
      (startMKSJob printerReady "a.gco").1 = ([111, 107], none) ∧
      (startMKSJob printerSilent "a.gco").2.count Event.connClose = 1 := by
  have h2 := (startMKSJob_outcomes printerSilent "a.gco").2 rfl
  have h3 := (startMKSJob_outcomes printerReady "a.gco").2 rfl
  refine ⟨?_, h2.1 "EOF" rfl, ?_, h2.2.2.1⟩
  · rw [startMKSJob_unreachable printerNoSocket "a.gco" "connection refused" rfl]
    simp [printerNoSocket, printerReady]
  · rw [(h3.2.1 rfl).1]
    simp [printerReady]

/-! ## uploadFileToMKS -/

theorem Sprintf_request (err : String) :
    Sprintf "error on MKS request: %v" [err] = "error on MKS request: " ++ err := by
  apply String.ext
  simp [Sprintf, sprintfChars, String.toList]

theorem Sprintf_response (err : String) :
    Sprintf "can't read MKS response body: %v" [err]
      = "can't read MKS response body: " ++ err := by
  apply String.ext
  simp [Sprintf, sprintfChars, String.toList]

/-- The buffer after `CreateFormFile`, a write of `bytes` and `Close`. -/
theorem writer_one_part (fieldname filename : String) (bytes : List UInt8) :
    (((NewWriter.CreateFormFile fieldname filename).1.writePart bytes).Close)
      = ⟨[⟨fieldname, filename, "application/octet-stream", bytes⟩], true⟩ := by
  simp [NewWriter, Writer.CreateFormFile, Writer.writePart, Writer.Close]

/-- The function `uploadFileToMKS` when the file cannot be opened or read to
its end: an error, and no request to the device. -/
theorem uploadFileToMKS_unbuilt (w : World) (fh : FileHeader)
    (h : w.openErr fh ≠ none ∨ w.readFault fh ≠ none) :
    (uploadFileToMKS w fh).1 ≠ none ∧
      (uploadFileToMKS w fh).2.filter Event.isPost = [] := by
  rcases ho : w.openErr fh with _ | e
  · rcases hr : w.readFault fh with _ | ⟨n, e⟩
    · simp [ho, hr] at h
    · simp [uploadFileToMKS, Writer.CreateFormFile, FileHeader.Open, ho, hr, ioCopy, Errorf,
        Event.isPost]
  · simp [uploadFileToMKS, Writer.CreateFormFile, FileHeader.Open, ho, Errorf, Event.isPost]

/-- The function `uploadFileToMKS` when the file opens and reads to its end. -/
theorem uploadFileToMKS_built (w : World) (fh : FileHeader)
    (ho : w.openErr fh = none) (hr : w.readFault fh = none) :
    uploadFileToMKS w fh =
      match w.post ("http://" ++ w.printerHost ++ "/upload?X-Filename=" ++ fh.Filename)
          "application/octet-stream"
          ⟨[⟨"uploadfile", fh.Filename, "application/octet-stream", fh.content⟩], true⟩ with
      | .error err =>
        (some ("error on MKS request: " ++ err),
          [.fileOpen fh.Filename,
            .post ("http://" ++ w.printerHost ++ "/upload?X-Filename=" ++ fh.Filename)
              "application/octet-stream"
              ⟨[⟨"uploadfile", fh.Filename, "application/octet-stream", fh.content⟩], true⟩,
            .fileClose])
      | .ok resp =>
        ((match resp.Body with
          | .error err => some ("can't read MKS response body: " ++ err)
          | .ok _ => none),
          [.fileOpen fh.Filename,
            .post ("http://" ++ w.printerHost ++ "/upload?X-Filename=" ++ fh.Filename)
              "application/octet-stream"
              ⟨[⟨"uploadfile", fh.Filename, "application/octet-stream", fh.content⟩], true⟩,
            .bodyClose, .fileClose]) := by
  have hw := writer_one_part "uploadfile" fh.Filename fh.content
  simp only [Writer.CreateFormFile] at hw
  simp only [uploadFileToMKS, Writer.CreateFormFile, FileHeader.Open, ho, hr, ioCopy, hw,
    Sprintf_uri]
  rcases w.post ("http://" ++ w.printerHost ++ "/upload?X-Filename=" ++ fh.Filename)
      "application/octet-stream"
      ⟨[⟨"uploadfile", fh.Filename, "application/octet-stream", fh.content⟩], true⟩
    with err | resp
  · simp [Errorf, Sprintf_request]
  · rcases hb : resp.Body with err | bytes <;> simp [hb, Errorf, Sprintf_response]

/-- Every request `uploadFileToMKS` makes goes to the formatted address, as
`application/octet-stream`, with the one-part body. -/
theorem uploadFileToMKS_post (w : World) (fh : FileHeader) (uri ct : String) (body : Writer)
    (h : Event.post uri ct body ∈ (uploadFileToMKS w fh).2) :
    uri = "http://" ++ w.printerHost ++ "/upload?X-Filename=" ++ fh.Filename ∧
      ct = "application/octet-stream" ∧
      body = ⟨[⟨"uploadfile", fh.Filename, "application/octet-stream", fh.content⟩], true⟩ := by
  by_cases hb : w.openErr fh = none ∧ w.readFault fh = none
  · rw [uploadFileToMKS_built w fh hb.1 hb.2] at h
    split at h
    · simpa using h
    · simpa using h
  · have hu := (uploadFileToMKS_unbuilt w fh (by tauto)).2
    have : Event.post uri ct body ∈ (uploadFileToMKS w fh).2.filter Event.isPost := by
      simp [List.mem_filter, h, Event.isPost]
    rw [hu] at this
    simp at this

theorem toList_take_prefix (a b : String) :
    (a ++ b).toList.take a.length = a.toList := by
  show (a ++ b).data.take a.data.length = a.data
  rw [String.data_append, List.take_left]

theorem toList_drop_prefix (a b : String) :
    (a ++ b).toList.drop a.length = b.toList := by
  show (a ++ b).data.drop a.data.length = b.data
  rw [String.data_append, List.drop_left]

/-- Claim C8.  The address `uploadFileToMKS` posts to is
`"http://" ++ printerHost ++ "/upload?X-Filename=" ++ filename` for every host
and filename, the filename standing unchanged after the fixed prefix; a request
is made whenever the file opens and reads to its end; and `startMKSJob` dials
`printerHost ++ ":8080"` over TCP, the same host. -/
theorem upload_uri_and_command_address (w : World) (fh : FileHeader) (filename : String) :
    Sprintf MKSUploadUriPattern [w.printerHost, fh.Filename]
        = "http://" ++ w.printerHost ++ "/upload?X-Filename=" ++ fh.Filename ∧
      (∀ (uri ct : String) (body : Writer),
        Event.post uri ct body ∈ (uploadFileToMKS w fh).2 →
          uri = "http://" ++ w.printerHost ++ "/upload?X-Filename=" ++ fh.Filename ∧
          uri.toList.take ("http://" ++ w.printerHost ++ "/upload?X-Filename=").length
            = ("http://" ++ w.printerHost ++ "/upload?X-Filename=").toList ∧
          uri.toList.drop ("http://" ++ w.printerHost ++ "/upload?X-Filename=").length
            = fh.Filename.toList) ∧
      (w.openErr fh = none → w.readFault fh = none →
        ∃ body : Writer,
          Event.post ("http://" ++ w.printerHost ++ "/upload?X-Filename=" ++ fh.Filename)
            "application/octet-stream" body ∈ (uploadFileToMKS w fh).2) ∧
      (startMKSJob w filename).2.head? = some (Event.dial "tcp" (w.printerHost ++ ":8080")) ∧
      (∀ network address : String, Event.dial network address ∈ (startMKSJob w filename).2 →
        network = "tcp" ∧ address = w.printerHost ++ ":8080") := by
  refine ⟨Sprintf_uri _ _, ?_, ?_, ?_, ?_⟩
  · intro uri ct body h
    have hu := (uploadFileToMKS_post w fh uri ct body h).1
    subst hu
    exact ⟨rfl, toList_take_prefix _ _, toList_drop_prefix _ _⟩
  · intro ho hr
    refine ⟨⟨[⟨"uploadfile", fh.Filename, "application/octet-stream", fh.content⟩], true⟩, ?_⟩
    rw [uploadFileToMKS_built w fh ho hr]
    split <;> simp
  · rcases hd : w.dial "tcp" (w.printerHost ++ ":8080") with _ | err
    · rw [startMKSJob_connected w filename hd]
      rfl
    · rw [startMKSJob_unreachable w filename err hd]
      rfl
  · intro network address h
    rcases hd : w.dial "tcp" (w.printerHost ++ ":8080") with _ | err
    · rw [startMKSJob_connected w filename hd] at h
      simpa using h
    · rw [startMKSJob_unreachable w filename err hd] at h
      simpa using h

/-- Witness for C8: a filename with a blank, an ampersand and a percent sign,
none of them escaped. -/
theorem upload_uri_and_command_address_witness :
    (uploadFileToMKS printerReady ⟨"a b&c%.gco", 1, [7]⟩).2
        = [.fileOpen "a b&c%.gco",
            .post "http://10.0.0.5/upload?X-Filename=a b&c%.gco" "application/octet-stream"
              ⟨[⟨"uploadfile", "a b&c%.gco", "application/octet-stream", [7]⟩], true⟩,
            .bodyClose, .fileClose] ∧
      (startMKSJob printerReady "a b&c%.gco").2.head?
        = some (Event.dial "tcp" ("10.0.0.5" ++ ":8080")) := by
  refine ⟨?_, (upload_uri_and_command_address printerReady ⟨"a b&c%.gco", 1, [7]⟩
    "a b&c%.gco").2.2.2.1⟩
  rw [uploadFileToMKS_built printerReady ⟨"a b&c%.gco", 1, [7]⟩ rfl rfl]
  simp [printerReady]

/-- The result of `uploadFileToMKS` is the same in two worlds that agree on
the host, on the file, and on every answer of the device up to its status code. -/
theorem uploadFileToMKS_status_blind (w w2 : World) (fh : FileHeader)
    (hh : w2.printerHost = w.printerHost) (ho : w2.openErr fh = w.openErr fh)
    (hr : w2.readFault fh = w.readFault fh)
    (hp : ∀ (u c : String) (b : Writer),
      (w2.post u c b).map Response.Body = (w.post u c b).map Response.Body) :
    uploadFileToMKS w2 fh = uploadFileToMKS w fh := by
  simp only [uploadFileToMKS, Writer.CreateFormFile, FileHeader.Open, ho, hr, hh]
  rcases w.openErr fh with _ | e
  · simp only
    rcases hc : ioCopy
        { parts := NewWriter.parts ++
            [{ fieldname := "uploadfile", filename := fh.Filename,
                contentType := "application/octet-stream", data := [] }],
          closed := NewWriter.closed }
        { data := fh.content, fault := w.readFault fh } with ⟨bw, n, _ | e⟩
    · simp only
      have h := hp (Sprintf MKSUploadUriPattern [w.printerHost, fh.Filename])
        "application/octet-stream" bw.Close
      rcases h2 : w2.post (Sprintf MKSUploadUriPattern [w.printerHost, fh.Filename])
          "application/octet-stream" bw.Close with e2 | r2 <;>
        rcases h1 : w.post (Sprintf MKSUploadUriPattern [w.printerHost, fh.Filename])
          "application/octet-stream" bw.Close with e1 | r1 <;>
        simp [h1, h2, Except.map] at h ⊢
      · rw [h]
      · rw [h]
    · simp only
  · simp only

/-- Claim C9.  When the file opens and reads to its end (the local body is
built), `uploadFileToMKS` returns a `nil` error exactly when the POST returned
a response and the response body was readable.  The status code plays no part:
a response with any status code and a readable body gives a `nil` error, and
two worlds that differ only in the status codes give the same result. -/
theorem uploadFileToMKS_success_iff (w : World) (fh : FileHeader)
    (ho : w.openErr fh = none) (hr : w.readFault fh = none) :
    ((uploadFileToMKS w fh).1 = none ↔
        ∃ (resp : Response) (bytes : List UInt8),
          w.post ("http://" ++ w.printerHost ++ "/upload?X-Filename=" ++ fh.Filename)
            "application/octet-stream"
            ⟨[⟨"uploadfile", fh.Filename, "application/octet-stream", fh.content⟩], true⟩
              = .ok resp ∧
          resp.Body = .ok bytes) ∧
      (∀ (code : Nat) (bytes : List UInt8),
        w.post ("http://" ++ w.printerHost ++ "/upload?X-Filename=" ++ fh.Filename)
            "application/octet-stream"
            ⟨[⟨"uploadfile", fh.Filename, "application/octet-stream", fh.content⟩], true⟩
              = .ok ⟨code, .ok bytes⟩ →
          (uploadFileToMKS w fh).1 = none) ∧
      (∀ w2 : World, w2.printerHost = w.printerHost → w2.openErr fh = w.openErr fh →
        w2.readFault fh = w.readFault fh →
        (∀ (u c : String) (b : Writer),
          (w2.post u c b).map Response.Body = (w.post u c b).map Response.Body) →
        uploadFileToMKS w2 fh = uploadFileToMKS w fh) := by
  refine ⟨?_, ?_, fun w2 hh ho2 hr2 hp => uploadFileToMKS_status_blind w w2 fh hh ho2 hr2 hp⟩
  · rw [uploadFileToMKS_built w fh ho hr]
    rcases hpost : w.post ("http://" ++ w.printerHost ++ "/upload?X-Filename=" ++ fh.Filename)
        "application/octet-stream"
        ⟨[⟨"uploadfile", fh.Filename, "application/octet-stream", fh.content⟩], true⟩
      with err | resp
    · simp
    · rcases hb : resp.Body with err | bytes <;> simp [hb]
  · intro code bytes hpost
    rw [uploadFileToMKS_built w fh ho hr, hpost]

/-- Witness for C9: the same upload answered with status 500 and with status
200, both with a readable body, and refused. -/
theorem uploadFileToMKS_success_iff_witness :
    (uploadFileToMKS printerStatus500 ⟨"a.gco", 1, [7]⟩).1 = none ∧
      uploadFileToMKS printerStatus500 ⟨"a.gco", 1, [7]⟩
        = uploadFileToMKS printerReady ⟨"a.gco", 1, [7]⟩ ∧
      (uploadFileToMKS printerNoHttp ⟨"a.gco", 1, [7]⟩).1
        = some "error on MKS request: connection refused" := by
  have h := uploadFileToMKS_success_iff printerReady ⟨"a.gco", 1, [7]⟩ rfl rfl
  refine ⟨?_, h.2.2 printerStatus500 rfl rfl rfl (fun _ _ _ => rfl), ?_⟩
  · exact (uploadFileToMKS_success_iff printerStatus500 ⟨"a.gco", 1, [7]⟩ rfl rfl).2.1
      500 [111, 107] rfl
  · rw [uploadFileToMKS_built printerNoHttp ⟨"a.gco", 1, [7]⟩ rfl rfl]
    simp [printerNoHttp]

/-- Claim C10.  Every body `uploadFileToMKS` posts is a closed multipart body
of exactly one part; the part is a file part with field name `uploadfile`, the
filename of the input and, as its data, the bytes of the input file, all of them
in order (so of the same length).  When the file opens and reads to its end,
exactly one such body is posted. -/
theorem uploadFileToMKS_body (w : World) (fh : FileHeader) :
    (∀ (uri ct : String) (body : Writer),
        Event.post uri ct body ∈ (uploadFileToMKS w fh).2 →
          body.closed = true ∧ body.parts.length = 1 ∧
          ∀ p ∈ body.parts, p.fieldname = "uploadfile" ∧ p.filename = fh.Filename ∧
            p.data = fh.content ∧ p.data.length = fh.content.length) ∧
      (w.openErr fh = none → w.readFault fh = none →
        ((uploadFileToMKS w fh).2.filter Event.isPost).length = 1) := by
  constructor
  · intro uri ct body h
    have hb := (uploadFileToMKS_post w fh uri ct body h).2.2
    subst hb
    simp
  · intro ho hr
    rw [uploadFileToMKS_built w fh ho hr]
    split <;> simp [Event.isPost]

/-- Witness for C10: an empty file and a file of one byte. -/
theorem uploadFileToMKS_body_witness :
    (uploadFileToMKS printerReady ⟨"empty.gco", 0, []⟩).2
        = [.fileOpen "empty.gco",
            .post "http://10.0.0.5/upload?X-Filename=empty.gco" "application/octet-stream"
              ⟨[⟨"uploadfile", "empty.gco", "application/octet-stream", []⟩], true⟩,
            .bodyClose, .fileClose] ∧
      ((uploadFileToMKS printerReady ⟨"one.gco", 1, [71]⟩).2.filter Event.isPost).length = 1 ∧
      (∀ (uri ct : String) (body : Writer),
        Event.post uri ct body ∈ (uploadFileToMKS printerReady ⟨"one.gco", 1, [71]⟩).2 →
          body.parts = [⟨"uploadfile", "one.gco", "application/octet-stream", [71]⟩]) := by
  refine ⟨?_, (uploadFileToMKS_body printerReady ⟨"one.gco", 1, [71]⟩).2 rfl rfl, ?_⟩
  · rw [uploadFileToMKS_built printerReady ⟨"empty.gco", 0, []⟩ rfl rfl]
    simp [printerReady]
  · intro uri ct body h
    rw [(uploadFileToMKS_post printerReady ⟨"one.gco", 1, [71]⟩ uri ct body h).2.2]

/-! ## handleFileUpload -/

/-- The function `parseOctoUpload` returns an error and no file, or a file
and no error. -/
theorem parseOctoUpload_cases (r : Request) :
    (∃ e : String, parseOctoUpload r = (none, false, some e)) ∨
      (∃ (upf : FileHeader) (sp : Bool), parseOctoUpload r = (some upf, sp, none)) := by
  rcases r with ⟨_ | parts⟩
  · left
    exact ⟨_, by simp [parseOctoUpload, Request.ParseMultipartForm, Errorf]; rfl⟩
  · rw [parseOctoUpload_ok]
    rcases filesNamed "file" parts with _ | ⟨fh, _ | ⟨fh2, rest⟩⟩
    · exact Or.inl ⟨_, rfl⟩
    · exact Or.inr ⟨_, _, rfl⟩
    · exact Or.inl ⟨_, rfl⟩

/-- The handler when extraction fails: status 400, nothing else. -/
theorem handleFileUpload_unparsed (w : World) (r : Request) (e : String)
    (h : parseOctoUpload r = (none, false, some e)) :
    handleFileUpload w .fresh r = some (⟨some 400, ""⟩, []) := by
  simp [handleFileUpload, h, ResponseWriter.WriteHeader, ResponseWriter.fresh]

/-- The handler when extraction succeeds. -/
theorem handleFileUpload_parsed (w : World) (r : Request) (upf : FileHeader) (sp : Bool)
    (h : parseOctoUpload r = (some upf, sp, none)) :
    handleFileUpload w .fresh r = some
      (match (uploadFileToMKS w upf).1 with
        | some _ =>
          (⟨some 400, ""⟩,
            [Event.call .uploadFileToMKS] ++ (uploadFileToMKS w upf).2
              ++ [Event.ret .uploadFileToMKS])
        | none =>
          if sp = true then
            ((match (startMKSJob w upf.Filename).1.2 with
              | some _ => ⟨some 500, ""⟩
              | none => ⟨some 200, "{}"⟩),
              [Event.call .uploadFileToMKS] ++ (uploadFileToMKS w upf).2
                ++ [Event.ret .uploadFileToMKS] ++ [Event.sleep 3, Event.call .startMKSJob]
                ++ (startMKSJob w upf.Filename).2 ++ [Event.ret .startMKSJob])
          else
            (⟨some 200, "{}"⟩,
              [Event.call .uploadFileToMKS] ++ (uploadFileToMKS w upf).2
                ++ [Event.ret .uploadFileToMKS])) := by
  simp only [handleFileUpload, h]
  rcases hu : uploadFileToMKS w upf with ⟨_ | e, t1⟩
  · cases sp
    · simp [ResponseWriter.Write, ResponseWriter.WriteHeader, ResponseWriter.fresh]
    · rcases hj : startMKSJob w upf.Filename with ⟨⟨out, _ | e⟩, t2⟩
      · simp [ResponseWriter.Write, ResponseWriter.WriteHeader, ResponseWriter.fresh]
      · simp [ResponseWriter.WriteHeader, ResponseWriter.fresh]
  · simp [ResponseWriter.WriteHeader, ResponseWriter.fresh]

/-- Every call of `uploadFileToMKS` is on the source file or the HTTP request. -/
theorem uploadFileToMKS_events (w : World) (fh : FileHeader) :
    ∀ e ∈ (uploadFileToMKS w fh).2, e.isUpload = true := by
  simp only [uploadFileToMKS]
  repeat' split
  all_goals simp [Event.isUpload]

/-- Every call of `startMKSJob` is on the TCP socket, and the first is the dial. -/
theorem startMKSJob_events (w : World) (filename : String) :
    (∀ e ∈ (startMKSJob w filename).2, e.isTcp = true) ∧
      ∃ e ∈ (startMKSJob w filename).2, e.isDial = true := by
  rcases hd : w.dial "tcp" (w.printerHost ++ ":8080") with _ | err
  · rw [startMKSJob_connected w filename hd]
    simp [Event.isTcp, Event.isDial]
  · rw [startMKSJob_unreachable w filename err hd]
    simp [Event.isTcp, Event.isDial]

/-- Claim C1.  On every request the handler returns, having written exactly
one of three responses: status 400 without a body when `parseOctoUpload`
returns an error or `uploadFileToMKS` does; status 500 without a body when both
succeed, `startPrinting` is true and `startMKSJob` returns an error; the body
`{}` under the default status 200 when both succeed and `startPrinting` is
false or `startMKSJob` succeeds.  One of these cases always applies. -/
theorem handleFileUpload_response (w : World) (r : Request) :
    ∃ (rw : ResponseWriter) (t : List Event),
      handleFileUpload w .fresh r = some (rw, t) ∧
      (rw = ⟨some 400, ""⟩ ∨ rw = ⟨some 500, ""⟩ ∨ rw = ⟨some 200, "{}"⟩) ∧
      ((parseOctoUpload r).2.2 ≠ none → rw = ⟨some 400, ""⟩) ∧
      (∀ (upf : FileHeader) (sp : Bool), parseOctoUpload r = (some upf, sp, none) →
        ((uploadFileToMKS w upf).1 ≠ none → rw = ⟨some 400, ""⟩) ∧
        ((uploadFileToMKS w upf).1 = none → sp = true →
          (startMKSJob w upf.Filename).1.2 ≠ none → rw = ⟨some 500, ""⟩) ∧
        ((uploadFileToMKS w upf).1 = none →
          sp = false ∨ (startMKSJob w upf.Filename).1.2 = none → rw = ⟨some 200, "{}"⟩)) ∧
      ((parseOctoUpload r).2.2 ≠ none ∨
        ∃ (upf : FileHeader) (sp : Bool), parseOctoUpload r = (some upf, sp, none)) := by
  rcases parseOctoUpload_cases r with ⟨e, h⟩ | ⟨upf, sp, h⟩
  · refine ⟨_, _, handleFileUpload_unparsed w r e h, Or.inl rfl, fun _ => rfl, ?_, ?_⟩
    · intro upf sp h2
      rw [h] at h2
      simp at h2
    · left
      simp [h]
  · refine ⟨_, _, handleFileUpload_parsed w r upf sp h, ?_, ?_, ?_, ?_⟩
    · rcases (uploadFileToMKS w upf).1 with _ | e
      · cases sp
        · simp
        · rcases (startMKSJob w upf.Filename).1.2 with _ | e <;> simp
      · simp
    · intro hne
      simp [h] at hne
    · intro upf2 sp2 h2
      rw [h] at h2
      simp only [Prod.mk.injEq, Option.some.injEq, and_true] at h2
      obtain ⟨rfl, rfl⟩ := h2
      refine ⟨?_, ?_, ?_⟩
      · intro hu
        rcases hu1 : (uploadFileToMKS w upf).1 with _ | e
        · exact absurd hu1 hu
        · rfl
      · intro hu hsp hj
        rcases hj1 : (startMKSJob w upf.Filename).1.2 with _ | e
        · exact absurd hj1 hj
        · simp [hu, hsp]
      · intro hu hor
        rcases hor with hsp | hj
        · simp [hu, hsp]
        · cases sp <;> simp [hu, hj]
    · exact Or.inr ⟨upf, sp, h⟩

/-- Witness for C1: a printer that closes the socket without an answer gives
500; an upload without `print` gives `{}` under 200; two `file` parts give 400;
a refused upload gives 400 even with `print=true`; a refused TCP connection
gives 500. -/
theorem handleFileUpload_response_witness :
    (∃ (rw : ResponseWriter) (t : List Event),
        handleFileUpload printerSilent .fresh
          ⟨.ok [.file "file" ⟨"a.gco", 2, [71, 49]⟩, .value "print" "true"]⟩ = some (rw, t) ∧
        rw = ⟨some 500, ""⟩) ∧
      (handleFileUpload printerReady .fresh
          ⟨.ok [.file "file" ⟨"a.gco", 2, [71, 49]⟩]⟩).map Prod.fst
        = some ⟨some 200, "{}"⟩ ∧
      (handleFileUpload printerReady .fresh
          ⟨.ok [.file "file" ⟨"a.gco", 2, [71, 49]⟩, .value "print" "true"]⟩).map Prod.fst
        = some ⟨some 200, "{}"⟩ ∧
      (handleFileUpload printerReady .fresh
          ⟨.ok [.file "file" ⟨"a.gco", 2, [71, 49]⟩, .file "file" ⟨"b.gco", 0, []⟩]⟩)
        = some (⟨some 400, ""⟩, []) ∧
      (handleFileUpload printerNoHttp .fresh
          ⟨.ok [.file "file" ⟨"a.gco", 2, [71, 49]⟩, .value "print" "true"]⟩).map Prod.fst
        = some ⟨some 400, ""⟩ ∧
      (handleFileUpload printerNoSocket .fresh
          ⟨.ok [.file "file" ⟨"a.gco", 2, [71, 49]⟩, .value "print" "true"]⟩).map Prod.fst
        = some ⟨some 500, ""⟩ := by
  refine ⟨?_, by decide, by decide, by decide, by decide, by decide⟩
  obtain ⟨rw, t, h, _, _, hc, _⟩ := handleFileUpload_response printerSilent
    ⟨.ok [.file "file" ⟨"a.gco", 2, [71, 49]⟩, .value "print" "true"]⟩
  exact ⟨rw, t, h,
    (hc ⟨"a.gco", 2, [71, 49]⟩ true (by decide)).2.1 (by decide) rfl (by decide)⟩

theorem isDial_isTcp (e : Event) (h : e.isDial = true) : e.isTcp = true := by
  cases e <;> simp_all [Event.isDial, Event.isTcp]

theorem isUpload_not_isTcp (e : Event) (h : e.isUpload = true) : e.isTcp = false := by
  cases e <;> simp_all [Event.isUpload, Event.isTcp]

theorem isTcp_not_isUpload (e : Event) (h : e.isTcp = true) : e.isUpload = false := by
  cases e <;> simp_all [Event.isUpload, Event.isTcp]

/-- A trace that ends with the return of the upload has no socket call and
no call of `startMKSJob`. -/
theorem upload_only_trace (t1 : List Event) (h1 : ∀ e ∈ t1, e.isUpload = true) :
    Event.call .uploadFileToMKS
        ∈ [Event.call .uploadFileToMKS] ++ t1 ++ [Event.ret .uploadFileToMKS] ∧
      Event.call .startMKSJob
        ∉ [Event.call .uploadFileToMKS] ++ t1 ++ [Event.ret .uploadFileToMKS] ∧
      ∀ e ∈ [Event.call .uploadFileToMKS] ++ t1 ++ [Event.ret .uploadFileToMKS],
        e.isTcp = false ∧ e ≠ Event.call .startMKSJob := by
  have hall : ∀ e ∈ [Event.call .uploadFileToMKS] ++ t1 ++ [Event.ret .uploadFileToMKS],
      e.isTcp = false ∧ e ≠ Event.call .startMKSJob := by
    intro e he
    simp only [List.mem_append, List.mem_singleton] at he
    rcases he with (rfl | he) | rfl
    · simp [Event.isTcp]
    · refine ⟨isUpload_not_isTcp e (h1 e he), ?_⟩
      rintro rfl
      simpa [Event.isUpload] using h1 _ he
    · simp [Event.isTcp]
  refine ⟨by simp, ?_, hall⟩
  intro hm
  exact (hall _ hm).2 rfl

/-- After the return of the upload, a trace that goes on with the job has no
upload call any more. -/
theorem job_trace_tail (t2 : List Event) (h2 : ∀ e ∈ t2, e.isTcp = true) :
    ∀ e ∈ [Event.sleep 3, Event.call .startMKSJob] ++ t2 ++ [Event.ret .startMKSJob],
      e.isUpload = false ∧ e ≠ Event.call .uploadFileToMKS ∧
        e ≠ Event.ret .uploadFileToMKS := by
  intro e he
  simp only [List.mem_append, List.mem_singleton, List.mem_cons, List.mem_nil_iff,
    or_false] at he
  rcases he with ((rfl | rfl) | he) | rfl
  · simp [Event.isUpload]
  · simp [Event.isUpload]
  · refine ⟨isTcp_not_isUpload e (h2 e he), ?_, ?_⟩
    · rintro rfl
      simpa [Event.isTcp] using h2 _ he
    · rintro rfl
      simpa [Event.isTcp] using h2 _ he
  · simp [Event.isUpload]

/-- Claim C2.  On every request the handler returns with a trace in which:
`uploadFileToMKS` is called exactly when `parseOctoUpload` returned no error;
`startMKSJob` is called exactly when `parseOctoUpload` returned a file with
`startPrinting = true` and `uploadFileToMKS` returned no error; a TCP dial, and
any socket call at all, occurs exactly when `startMKSJob` is called; when it is
called, the trace splits at the return of the upload, with no socket call and
no call of `startMKSJob` before it and no upload call after it; and a failed
extraction leaves the trace empty. -/
theorem handleFileUpload_trace (w : World) (r : Request) :
    ∃ (rw : ResponseWriter) (t : List Event),
      handleFileUpload w .fresh r = some (rw, t) ∧
      (Event.call .uploadFileToMKS ∈ t ↔ (parseOctoUpload r).2.2 = none) ∧
      (Event.call .startMKSJob ∈ t ↔
        ∃ upf : FileHeader, parseOctoUpload r = (some upf, true, none) ∧
          (uploadFileToMKS w upf).1 = none) ∧
      ((∃ e ∈ t, e.isDial = true) ↔ Event.call .startMKSJob ∈ t) ∧
      ((∃ e ∈ t, e.isTcp = true) ↔ Event.call .startMKSJob ∈ t) ∧
      (Event.call .startMKSJob ∈ t →
        ∃ a b : List Event, t = a ++ Event.ret .uploadFileToMKS :: b ∧
          (∀ e ∈ a, e.isTcp = false ∧ e ≠ Event.call .startMKSJob) ∧
          (∀ e ∈ b, e.isUpload = false ∧ e ≠ Event.call .uploadFileToMKS ∧
            e ≠ Event.ret .uploadFileToMKS) ∧
          Event.call .startMKSJob ∈ b) ∧
      ((parseOctoUpload r).2.2 ≠ none → t = []) := by
  rcases parseOctoUpload_cases r with ⟨e, h⟩ | ⟨upf, sp, h⟩
  · refine ⟨_, _, handleFileUpload_unparsed w r e h, ?_⟩
    simp [h]
  · have hup := upload_only_trace _ (uploadFileToMKS_events w upf)
    have hjob := job_trace_tail _ (startMKSJob_events w upf.Filename).1
    obtain ⟨d, hd, hdial⟩ := (startMKSJob_events w upf.Filename).2
    have hnotcp : ¬ ∃ e ∈ [Event.call .uploadFileToMKS] ++ (uploadFileToMKS w upf).2
        ++ [Event.ret .uploadFileToMKS], e.isTcp = true := by
      rintro ⟨e, he, htcp⟩
      rw [(hup.2.2 e he).1] at htcp
      exact Bool.false_ne_true htcp
    have hnodial : ¬ ∃ e ∈ [Event.call .uploadFileToMKS] ++ (uploadFileToMKS w upf).2
        ++ [Event.ret .uploadFileToMKS], e.isDial = true := by
      rintro ⟨e, he, hdl⟩
      exact hnotcp ⟨e, he, isDial_isTcp e hdl⟩
    refine ⟨_, _, handleFileUpload_parsed w r upf sp h, ?_⟩
    have hfail :
        (Event.call .uploadFileToMKS ∈ [Event.call .uploadFileToMKS]
            ++ (uploadFileToMKS w upf).2 ++ [Event.ret .uploadFileToMKS] ↔
          (parseOctoUpload r).2.2 = none) := by
      simp [h]
    rcases hu1 : (uploadFileToMKS w upf).1 with _ | e
    · cases sp
      · refine ⟨by simpa using hfail, ?_, ?_, ?_, ?_, ?_⟩
        · simpa [h] using hup.2.1
        · exact ⟨fun hx => absurd hx hnodial, fun hm => absurd hm hup.2.1⟩
        · exact ⟨fun hx => absurd hx hnotcp, fun hm => absurd hm hup.2.1⟩
        · intro hm
          exact absurd (by simpa using hm) hup.2.1
        · simp [h]
      · have hin : Event.call .startMKSJob ∈ [Event.call .uploadFileToMKS]
            ++ (uploadFileToMKS w upf).2 ++ [Event.ret .uploadFileToMKS]
            ++ [Event.sleep 3, Event.call .startMKSJob]
            ++ (startMKSJob w upf.Filename).2 ++ [Event.ret .startMKSJob] := by
          simp
        have hd2 : d ∈ [Event.call .uploadFileToMKS]
            ++ (uploadFileToMKS w upf).2 ++ [Event.ret .uploadFileToMKS]
            ++ [Event.sleep 3, Event.call .startMKSJob]
            ++ (startMKSJob w upf.Filename).2 ++ [Event.ret .startMKSJob] := by
          simp [hd]
        refine ⟨by simp [h], ?_, ?_, ?_, ?_, ?_⟩
        · simp only [if_true, hin, true_iff]
          exact ⟨upf, h, hu1⟩
        · simp only [if_true, hin, iff_true]
          exact ⟨d, hd2, hdial⟩
        · simp only [if_true, hin, iff_true]
          exact ⟨d, hd2, isDial_isTcp d hdial⟩
        · intro _
          refine ⟨[Event.call .uploadFileToMKS] ++ (uploadFileToMKS w upf).2,
            [Event.sleep 3, Event.call .startMKSJob] ++ (startMKSJob w upf.Filename).2
              ++ [Event.ret .startMKSJob], by simp, ?_, hjob, by simp⟩
          intro e he
          exact hup.2.2 e (by simp only [List.mem_append] at he ⊢; exact Or.inl he)
        · simp [h]
    · refine ⟨by simpa using hfail, ?_, ?_, ?_, ?_, ?_⟩
      · simp only [hup.2.1, false_iff]
        rintro ⟨upf2, h2, hu2⟩
        rw [h] at h2
        simp only [Prod.mk.injEq, Option.some.injEq, and_true] at h2
        rw [← h2.1, hu1] at hu2
        exact Option.noConfusion hu2
      · exact ⟨fun hx => absurd hx hnodial, fun hm => absurd hm hup.2.1⟩
      · exact ⟨fun hx => absurd hx hnotcp, fun hm => absurd hm hup.2.1⟩
      · intro hm
        exact absurd hm hup.2.1
      · simp [h]

/-- Witness for C2: with `print=true` on a ready printer the job is called in
the trace found by the theorem; the full traces of an upload without `print`,
of a refused upload with `print=true`, and of an upload with `print=true`. -/
theorem handleFileUpload_trace_witness :
    (∃ (rw : ResponseWriter) (t : List Event),
        handleFileUpload printerReady .fresh
          ⟨.ok [.file "file" ⟨"a.gco", 2, [71, 49]⟩, .value "print" "true"]⟩ = some (rw, t) ∧
        Event.call .startMKSJob ∈ t) ∧
      (handleFileUpload printerReady .fresh ⟨.ok [.file "file" ⟨"a.gco", 2, [71, 49]⟩]⟩)
        = some (⟨some 200, "{}"⟩,
            [.call .uploadFileToMKS, .fileOpen "a.gco",
              .post "http://10.0.0.5/upload?X-Filename=a.gco" "application/octet-stream"
                ⟨[⟨"uploadfile", "a.gco", "application/octet-stream", [71, 49]⟩], true⟩,
              .bodyClose, .fileClose, .ret .uploadFileToMKS]) ∧
      (handleFileUpload printerNoHttp .fresh
          ⟨.ok [.file "file" ⟨"a.gco", 2, [71, 49]⟩, .value "print" "true"]⟩)
        = some (⟨some 400, ""⟩,
            [.call .uploadFileToMKS, .fileOpen "a.gco",
              .post "http://10.0.0.5/upload?X-Filename=a.gco" "application/octet-stream"
                ⟨[⟨"uploadfile", "a.gco", "application/octet-stream", [71, 49]⟩], true⟩,
              .fileClose, .ret .uploadFileToMKS]) ∧
      (handleFileUpload printerReady .fresh
          ⟨.ok [.file "file" ⟨"a.gco", 2, [71, 49]⟩, .value "print" "true"]⟩)
        = some (⟨some 200, "{}"⟩,
            [.call .uploadFileToMKS, .fileOpen "a.gco",
              .post "http://10.0.0.5/upload?X-Filename=a.gco" "application/octet-stream"
                ⟨[⟨"uploadfile", "a.gco", "application/octet-stream", [71, 49]⟩], true⟩,
              .bodyClose, .fileClose, .ret .uploadFileToMKS, .sleep 3, .call .startMKSJob,
              .dial "tcp" "10.0.0.5:8080", .connWrite "M23 a.gco\r\n", .connWrite "M24\r\n",
              .connRead 1024, .connClose, .ret .startMKSJob]) := by
  refine ⟨?_, by decide, by decide, ?_⟩
  · obtain ⟨rw, t, h, _, hj, _⟩ := handleFileUpload_trace printerReady
      ⟨.ok [.file "file" ⟨"a.gco", 2, [71, 49]⟩, .value "print" "true"]⟩
    exact ⟨rw, t, h, hj.2 ⟨⟨"a.gco", 2, [71, 49]⟩, by decide, by decide⟩⟩
  · rw [handleFileUpload_parsed printerReady _ ⟨"a.gco", 2, [71, 49]⟩ true (by decide),
      uploadFileToMKS_built printerReady _ rfl rfl, startMKSJob_connected printerReady _ rfl]
    simp [printerReady]

end MksWifiToOcto
